import Mathlib

/-!
# Aeodos front-end scripts: a shallow embedding

This file embeds, in Lean 4, the browser scripts of the Aeodos static
site (`src/assets/js/playground.js`, `src/assets/js/main.js`,
`src/assets/js/codeExamples.js`) and proves properties of the embedded
functions.

Modelling conventions:
* The DOM state touched by each controller is a Lean structure; DOM
  writes become functional updates.
* `async`/`await` around the single `fetch` of a controller is modelled
  by passing the outcome of that fetch as an explicit argument
  (`FetchOutcome`): the fetch either rejects (network failure), or
  resolves to a response with an HTTP `ok` flag and a body whose JSON
  parse may itself fail.
* A thrown JavaScript exception is an `Except.error` carrying the
  message and the state at the throw point; `try`/`catch`/`finally`
  blocks are translated explicitly.  A handler whose embedding returns
  `Except.ok` on some input propagates no uncaught exception there.
* The syntax highlighter (`Prism`) is, per the repository docs, an
  external opaque text-to-markup function; its calls neither throw nor
  change the modelled state.
* JavaScript string truthiness (`x || d` falling back on `""`,
  `undefined` and `null`) is `jsOrElse`.
-/

namespace Aeodos

/-- Decidable equality for `Except`, used to evaluate handler results on
concrete inputs. -/
instance {ε α : Type} [DecidableEq ε] [DecidableEq α] :
    DecidableEq (Except ε α) := fun a b =>
  match a, b with
  | .ok x, .ok y =>
    if h : x = y then .isTrue (by rw [h]) else .isFalse (by simp [h])
  | .error x, .error y =>
    if h : x = y then .isTrue (by rw [h]) else .isFalse (by simp [h])
  | .ok _, .error _ => .isFalse (by simp)
  | .error _, .ok _ => .isFalse (by simp)

/-- JavaScript truthiness fallback for an optional string field:
`v || d` yields `d` when `v` is absent (`undefined`/`null`) or the empty
string, and `v` otherwise. -/
def jsOrElse (v : Option String) (d : String) : String :=
  match v with
  | none => d
  | some s => if s = "" then d else s

/-- The JSON body of a response as consumed by the two controllers: only
the fields `previewUrl`, `api_key`, `detail` and `message` are ever read
(`playground.js:75,79`, `main.js:158,161`); each may be absent. -/
structure RespBody where
  previewUrl : Option String := none
  api_key : Option String := none
  detail : Option String := none
  message : Option String := none
  deriving Repr, DecidableEq

/-- Outcome of a single `fetch` call together with the subsequent
`await response.json()`:
* `netError msg` — the fetch itself rejected (network failure); `msg` is
  the rejection's message;
* `response ok body` — the fetch resolved with HTTP success flag `ok`;
  `body` is the result of parsing the body as JSON, `Except.error msg`
  when the parse throws. -/
inductive FetchOutcome where
  | netError (msg : String)
  | response (ok : Bool) (body : Except String RespBody)
  deriving Repr, DecidableEq

/-! ## Playground controller (`src/assets/js/playground.js`) -/

/-- One page-selection checkbox: its `value` attribute and `checked`
state (`playground.js:90-98,130-132`, `index.html:118-131`). -/
structure Checkbox where
  value : String
  checked : Bool
  deriving Repr, DecidableEq

/-- What the preview pane currently renders (the object passed to
`updatePreviewCode`, `playground.js:100-103`):
* `raw body` — the parsed success response (`playground.js:74`);
* `errObj errorFlag message` — the object built by `showError`
  (`playground.js:136-141`), with its `error` and `message` fields;
* `info message` — the initial hint object (`playground.js:45-47`). -/
inductive Preview where
  | raw (body : RespBody)
  | errObj (errorFlag : Bool) (message : String)
  | info (message : String)
  deriving Repr, DecidableEq

/-- The DOM state the playground controller reads and writes:
the form fields, the run button, the loading flag and the preview pane
(`playground.js:7-16`). -/
structure PGState where
  description : String
  style : String
  checkboxes : List Checkbox
  runDisabled : Bool
  runLabel : String
  previewLoading : Bool
  preview : Preview
  frameSrc : Option String
  deriving Repr, DecidableEq

/-- The request body of `POST {apiEndpoint}/generate/website`
(`playground.js:56-60`). -/
structure WebsiteConfig where
  description : String
  style : String
  pages : List String
  deriving Repr, DecidableEq

/-- A network call issued by the playground (`playground.js:62-69`). -/
structure PGCall where
  url : String
  config : WebsiteConfig
  deriving Repr, DecidableEq

/-- `this.apiEndpoint` (`playground.js:21`). -/
def apiEndpoint : String := "http://api.canopus.software/aeodos"

/-- `getSelectedPages` (`playground.js:90-98`): start from `['home']`
and push the value of every checked checkbox whose value is not
`'home'`. -/
def getSelectedPages (cbs : List Checkbox) : List String :=
  cbs.foldl
    (fun pages cb =>
      if cb.checked && cb.value != "home" then pages ++ [cb.value] else pages)
    ["home"]

/-- `updatePreviewCode` (`playground.js:100-103`): render `data` into the
preview pane, then highlight (the highlighter is opaque and modelled as
the identity on our state). -/
def updatePreviewCode (data : Preview) (st : PGState) : PGState :=
  { st with preview := data }

/-- `showError` (`playground.js:136-141`): render `{ error: true,
message }` into the preview pane. -/
def showError (message : String) (st : PGState) : PGState :=
  updatePreviewCode (.errObj true message) st

/-- `setInitialState` (`playground.js:43-48`): set the default
description and the initial hint message. -/
def setInitialState (st : PGState) : PGState :=
  updatePreviewCode
    (.info "Configure your website and click \"Generate Website\" to see the result")
    { st with description := "A modern business website with a clean design" }

/-- `resetPlayground` (`playground.js:127-134`): clear the description,
reset the style to `'modern'`, check exactly the `'home'` checkboxes,
then run `setInitialState`. -/
def resetPlayground (st : PGState) : PGState :=
  setInitialState
    { st with
      description := ""
      style := "modern"
      checkboxes := st.checkboxes.map fun cb =>
        { cb with checked := cb.value == "home" } }

/-- The `try` block of `generateWebsite` (`playground.js:51-80`), given
the fetch outcome.  Assumes the state already reflects lines 52-54
(button disabled, busy label, loading).  An `Except.error` is a thrown
exception: the rejection of the fetch (line 62), the failed JSON parse
(line 71), or the explicit `throw new Error(data.detail || 'Generation
failed')` on a non-ok response (line 79). -/
def generateTryBody (outcome : FetchOutcome) (st : PGState) :
    Except (String × PGState) PGState :=
  match outcome with
  | .netError msg => .error (msg, st)
  | .response ok body =>
    match body with
    | .error msg => .error (msg, st)
    | .ok data =>
      if ok then
        let st := updatePreviewCode (.raw data) st
        match data.previewUrl with
        | some u => .ok { st with frameSrc := some u }
        | none => .ok st
      else
        .error (jsOrElse data.detail "Generation failed", st)

/-- The `finally` block of `generateWebsite` (`playground.js:83-87`):
re-enable the button, restore its label, clear the loading flag. -/
def generateFinally (st : PGState) : PGState :=
  { st with
    runDisabled := false
    runLabel := "Generate Website"
    previewLoading := false }

/-- Result of one run of `generateWebsite`: the final state wrapped in
`Except` (an `Except.error` would be an uncaught exception escaping the
handler), and the single network call the handler issued. -/
structure GWResult where
  result : Except (String × PGState) PGState
  call : PGCall
  deriving Repr, DecidableEq

/-- `generateWebsite` (`playground.js:50-88`): disable the button and
set the busy state (lines 52-54), build the config (lines 56-60), issue
the fetch (lines 62-69), then run the `try` body; any exception is
caught by `catch` and rendered via `showError` (lines 81-82); `finally`
(lines 83-87) runs on both paths. -/
def generateWebsite (outcome : FetchOutcome) (st : PGState) : GWResult :=
  let st := { st with
    runDisabled := true
    runLabel := "Generating..."
    previewLoading := true }
  let config : WebsiteConfig :=
    { description := st.description
      style := st.style
      pages := getSelectedPages st.checkboxes }
  let call : PGCall := { url := apiEndpoint ++ "/generate/website", config := config }
  match generateTryBody outcome st with
  | .ok st' => { result := .ok (generateFinally st'), call := call }
  | .error (msg, st') =>
      { result := .ok (generateFinally (showError msg st')), call := call }

/-! ## Key-request controller (`src/assets/js/main.js`)

### The email regular expression

`isValidEmail` (`main.js:185-187`) tests
`/^[^\s@]+@[^\s@]+\.[^\s@]+$/`.  The character class `[^\s@]` accepts
any character that is neither JavaScript whitespace (`\s`) nor `@`; the
pattern is one or more such characters, an `@`, one or more such
characters, a literal dot, and one or more such characters, anchored at
both ends.  `emailMatches` below implements exactly that match; since
`[^\s@]` never matches `@`, the split can only happen at the unique `@`
of the input, and the part after `@` must contain a dot that is neither
its first nor its last character. -/

/-- The characters matched by JavaScript's `\s` (ECMA-262 WhiteSpace and
LineTerminator code points). -/
def jsWhitespace (c : Char) : Bool :=
  c == '\t' || c == '\n' || c == '\x0b' || c == '\x0c' || c == '\r' ||
  c == ' ' || c == '\u00A0' || c == '\u1680' ||
  (0x2000 ≤ c.toNat && c.toNat ≤ 0x200A) ||
  c == '\u2028' || c == '\u2029' || c == '\u202F' || c == '\u205F' ||
  c == '\u3000' || c == '\uFEFF'

/-- The character class `[^\s@]` of the email regex. -/
def charOk (c : Char) : Bool :=
  !jsWhitespace c && c != '@'

/-- Is there a `'.'` in the list that has at least one character after
it?  (Helper for locating the `\.` of the regex with a non-empty
`[^\s@]+` on its right.) -/
def dotBeforeEnd : List Char → Bool
  | [] => false
  | c :: t => (c == '.' && !t.isEmpty) || dotBeforeEnd t

/-- Is there a `'.'` at a position that is neither the first nor the
last of the list?  This is what `[^\s@]+\.[^\s@]+` requires of the part
after the `@`, given that every character is in `[^\s@]`. -/
def hasInteriorDot : List Char → Bool
  | [] => false
  | _ :: t => dotBeforeEnd t

/-- The regex test of `isValidEmail` (`main.js:186`):
`/^[^\s@]+@[^\s@]+\.[^\s@]+$/.test(email)`.  The characters before the
first `@` are the candidate `[^\s@]+` local part; the rest must start
with `@` and its tail must be all `[^\s@]` with an interior dot. -/
def emailMatches (s : String) : Bool :=
  match s.toList.dropWhile (fun c => c != '@') with
  | [] => false
  | _ :: t =>
    !(s.toList.takeWhile (fun c => c != '@')).isEmpty &&
    (s.toList.takeWhile (fun c => c != '@')).all charOk &&
    t.all charOk && hasInteriorDot t

/-- The email regex read declaratively, as the claim words it: the
string decomposes as a non-empty local part, `@`, a non-empty domain
part, a dot, and a non-empty suffix, with every part free of whitespace
and of further `@` characters. -/
def emailRegexSpec (s : String) : Prop :=
  ∃ l m r : List Char,
    s.toList = l ++ '@' :: (m ++ '.' :: r) ∧
    l ≠ [] ∧ m ≠ [] ∧ r ≠ [] ∧
    (∀ c ∈ l, charOk c) ∧ (∀ c ∈ m, charOk c) ∧ (∀ c ∈ r, charOk c)

/-! ### Form validation and the submission handler -/

/-- `isValidEmail` (`main.js:185-187`). -/
def isValidEmail (email : String) : Bool :=
  emailMatches email

/-- The outcome of `validateForm` (`main.js:169-183`): the returned
flag, and the error message `showFieldError` attaches to each offending
field (`none` when the field passes).  JavaScript's `company.value.length`
counts UTF-16 code units; we count characters, which agrees on all
non-astral text. -/
structure ValidationResult where
  isValid : Bool
  emailError : Option String
  companyError : Option String
  deriving Repr, DecidableEq

/-- `validateForm` (`main.js:169-183`): flag the email field when the
regex test fails, flag the company field when its value is shorter than
2, and return whether both checks passed. -/
def validateForm (email company : String) : ValidationResult :=
  let emailErr : Option String :=
    if !isValidEmail email then some "Please enter a valid business email" else none
  let companyErr : Option String :=
    if company.length < 2 then some "Company name is too short" else none
  { isValid := emailErr.isNone && companyErr.isNone
    emailError := emailErr
    companyError := companyErr }

/-- The DOM state the key-request handler reads and writes: the
per-field error annotations (`showFieldError`/`clearErrors`), the inline
error banner (`showErrorMessage`), the loading state of the submit
button (`setFormLoading`, `main.js:213-224` — note it never touches the
button's `disabled` property), and the success view
(`showSuccessMessage`). -/
structure KFState where
  emailGroupError : Option String
  companyGroupError : Option String
  bannerError : Option String
  submitDisabled : Bool
  btnLoadingClass : Bool
  spinnerShown : Bool
  btnLabel : String
  successShown : Bool
  shownKey : Option String
  deriving Repr, DecidableEq

/-- A network call issued by the key-request handler
(`main.js:144-153`). -/
structure KeyCall where
  url : String
  email : String
  company_name : String
  deriving Repr, DecidableEq

/-- `clearErrors` (`main.js:206-211`): remove the error annotations from
the form groups.  (The banner of `showErrorMessage` is not inside a
`.form-group`, so it is not removed here.) -/
def clearErrors (st : KFState) : KFState :=
  { st with emailGroupError := none, companyGroupError := none }

/-- `setFormLoading` (`main.js:213-224`): toggle the button's `loading`
class, the spinner and the label.  The button's `disabled` property is
not written. -/
def setFormLoading (loading : Bool) (st : KFState) : KFState :=
  if loading then
    { st with btnLoadingClass := true, spinnerShown := true, btnLabel := "Generating..." }
  else
    { st with btnLoadingClass := false, spinnerShown := false, btnLabel := "Generate API Key" }

/-- `showErrorMessage` (`main.js:310-319`): insert an inline error
banner at the top of the form. -/
def showErrorMessage (message : String) (st : KFState) : KFState :=
  { st with bannerError := some message }

/-- `showSuccessMessage` (`main.js:226-266`): replace the modal content
with the success view displaying `data.api_key`. -/
def showSuccessMessage (apiKey : Option String) (st : KFState) : KFState :=
  { st with successShown := true, shownKey := apiKey }

/-- `handleApiKeyGeneration` (`main.js:127-167`), given the form values
and the fetch outcome.  Returns the handler result (`Except.error`
would be an uncaught exception escaping the handler) and the list of
network calls issued.  Flow: clear previous errors (line 135), validate
and return on failure (line 138, annotating the offending fields via
`showFieldError` inside `validateForm`), else set the loading state
(line 142), issue the fetch (lines 144-153), parse the body (line 155),
throw `data.detail || 'Failed to generate API key'` on a non-ok
response (lines 157-159), show the success view otherwise (line 161);
`catch` renders the error banner (lines 162-163) and `finally` clears
the loading state (lines 164-166). -/
def handleApiKeyGeneration (email company : String) (outcome : FetchOutcome)
    (st : KFState) : (Except (String × KFState) KFState) × List KeyCall :=
  let st := clearErrors st
  let v := validateForm email company
  let st := { st with emailGroupError := v.emailError, companyGroupError := v.companyError }
  if !v.isValid then (.ok st, [])
  else
    let st := setFormLoading true st
    let call : KeyCall :=
      { url := apiEndpoint ++ "/keys/generate", email := email, company_name := company }
    let res : Except (String × KFState) KFState :=
      match outcome with
      | .netError msg => .error (msg, st)
      | .response ok body =>
        match body with
        | .error msg => .error (msg, st)
        | .ok data =>
          if !ok then .error (jsOrElse data.detail "Failed to generate API key", st)
          else .ok (showSuccessMessage data.api_key st)
    match res with
    | .ok st' => (.ok (setFormLoading false st'), [call])
    | .error (msg, st') => (.ok (setFormLoading false (showErrorMessage msg st')), [call])

/-! ## Code example switcher (`src/assets/js/codeExamples.js`) -/

/-- The three snippets of one language in the static store
`this.codeExamples` (`codeExamples.js:7-234`): one per documented
operation (authentication, website generation, project status). -/
structure LangExamples where
  authentication : String
  websiteGeneration : String
  projectStatus : String
  deriving Repr, DecidableEq

/-- Snippet fixtures for `curl` from `codeExamples.js` (`this.codeExamples.curl`). -/
def curlExamples : LangExamples where
  authentication := "curl -X POST http://api.canopus.software/Aoede/keys/generate -H \"Content-Type: application/json\" -d \x27\x7b\n    \"email\": \"your@email.com\",\n    \"company_name\": \"Your Company\"\n\x7d\x27"
  websiteGeneration := "curl -X POST http://api.canopus.software/Aoede/generate/website -H \"Authorization: Bearer YOUR_API_KEY\" -H \"Content-Type: application/json\" -d \x27\x7b\n    \"description\": \"A modern business website\",\n    \"style\": \"minimal\",\n    \"pages\": [\"home\", \"about\", \"contact\"]\n\x7d\x27"
  projectStatus := "curl http://api.canopus.software/Aoede/projects/PROJECT_ID/status -H \"Authorization: Bearer YOUR_API_KEY\""

/-- Snippet fixtures for `python` from `codeExamples.js` (`this.codeExamples.python`). -/
def pythonExamples : LangExamples where
  authentication := "import requests\n\nresponse = requests.post(\n    \x27http://api.canopus.software/Aoede/keys/generate\x27,\n    json=\x7b\n        \x27email\x27: \x27your@email.com\x27,\n        \x27company_name\x27: \x27Your Company\x27\n    \x7d\n)\n\napi_key = response.json()[\x27api_key\x27]"
  websiteGeneration := "import requests\n\nresponse = requests.post(\n    \x27http://api.canopus.software/Aoede/generate/website\x27,\n    headers=\x7b\x27Authorization\x27: \x27Bearer YOUR_API_KEY\x27\x7d,\n    json=\x7b\n        \x27description\x27: \x27A modern business website\x27,\n        \x27style\x27: \x27minimal\x27,\n        \x27pages\x27: [\x27home\x27, \x27about\x27, \x27contact\x27]\n    \x7d\n)\n\nproject = response.json()"
  projectStatus := "import requests\n\nresponse = requests.get(\n    \x27http://api.canopus.software/Aoede/projects/PROJECT_ID/status\x27,\n    headers=\x7b\x27Authorization\x27: \x27Bearer YOUR_API_KEY\x27\x7d\n)\n\nstatus = response.json()"

/-- Snippet fixtures for `javascript` from `codeExamples.js` (`this.codeExamples.javascript`). -/
def javascriptExamples : LangExamples where
  authentication := "// Using fetch API\nconst response = await fetch(\x27http://api.canopus.software/Aoede/keys/generate\x27, \x7b\n    method: \x27POST\x27,\n    headers: \x7b\n        \x27Content-Type\x27: \x27application/json\x27\n    \x7d,\n    body: JSON.stringify(\x7b\n        email: \x27your@email.com\x27,\n        company_name: \x27Your Company\x27\n    \x7d)\n\x7d);\n\nconst \x7b api_key \x7d = await response.json();"
  websiteGeneration := "// Generate website\nconst response = await fetch(\x27http://api.canopus.software/Aoede/generate/website\x27, \x7b\n    method: \x27POST\x27,\n    headers: \x7b\n        \x27Authorization\x27: \x27Bearer YOUR_API_KEY\x27,\n        \x27Content-Type\x27: \x27application/json\x27\n    \x7d,\n    body: JSON.stringify(\x7b\n        description: \x27A modern business website\x27,\n        style: \x27minimal\x27,\n        pages: [\x27home\x27, \x27about\x27, \x27contact\x27]\n    \x7d)\n\x7d);\n\nconst project = await response.json();"
  projectStatus := "// Check project status\nconst response = await fetch(\n    \x27http://api.canopus.software/Aoede/projects/PROJECT_ID/status\x27,\n    \x7b\n        headers: \x7b\n            \x27Authorization\x27: \x27Bearer YOUR_API_KEY\x27\n        \x7d\n    \x7d\n);\n\nconst status = await response.json();"

/-- Snippet fixtures for `php` from `codeExamples.js` (`this.codeExamples.php`). -/
def phpExamples : LangExamples where
  authentication := "<?php\n$ch = curl_init(\x27http://api.canopus.software/Aoede/keys/generate\x27);\n$data = [\n    \x27email\x27 => \x27your@email.com\x27,\n    \x27company_name\x27 => \x27Your Company\x27\n];\n\ncurl_setopt_array($ch, [\n    CURLOPT_POST => true,\n    CURLOPT_RETURNTRANSFER => true,\n    CURLOPT_HTTPHEADER => [\x27Content-Type: application/json\x27],\n    CURLOPT_POSTFIELDS => json_encode($data)\n]);\n\n$response = curl_exec($ch);\n$result = json_decode($response, true);\n$api_key = $result[\x27api_key\x27];\ncurl_close($ch);"
  websiteGeneration := "<?php\n$ch = curl_init(\x27http://api.canopus.software/Aoede/generate/website\x27);\n$data = [\n    \x27description\x27 => \x27A modern business website\x27,\n    \x27style\x27 => \x27minimal\x27,\n    \x27pages\x27 => [\x27home\x27, \x27about\x27, \x27contact\x27]\n];\n\ncurl_setopt_array($ch, [\n    CURLOPT_POST => true,\n    CURLOPT_RETURNTRANSFER => true,\n    CURLOPT_HTTPHEADER => [\n        \x27Authorization: Bearer YOUR_API_KEY\x27,\n        \x27Content-Type: application/json\x27\n    ],\n    CURLOPT_POSTFIELDS => json_encode($data)\n]);\n\n$response = curl_exec($ch);\n$project = json_decode($response, true);\ncurl_close($ch);"
  projectStatus := "<?php\n$ch = curl_init(\x27http://api.canopus.software/Aoede/projects/PROJECT_ID/status\x27);\n\ncurl_setopt_array($ch, [\n    CURLOPT_RETURNTRANSFER => true,\n    CURLOPT_HTTPHEADER => [\x27Authorization: Bearer YOUR_API_KEY\x27]\n]);\n\n$response = curl_exec($ch);\n$status = json_decode($response, true);\ncurl_close($ch);"

/-- Snippet fixtures for `go` from `codeExamples.js` (`this.codeExamples.go`). -/
def goExamples : LangExamples where
  authentication := "package main\n\nimport (\n    \"bytes\"\n    \"encoding/json\"\n    \"net/http\"\n)\n\nfunc main() \x7b\n    data := map[string]string\x7b\n        \"email\": \"your@email.com\",\n        \"company_name\": \"Your Company\",\n    \x7d\n    \n    jsonData, _ := json.Marshal(data)\n    \n    req, _ := http.NewRequest(\"POST\", \n        \"http://api.canopus.software/Aoede/keys/generate\",\n        bytes.NewBuffer(jsonData))\n        \n    req.Header.Set(\"Content-Type\", \"application/json\")\n    \n    client := &http.Client\x7b\x7d\n    resp, _ := client.Do(req)\n    \n    var result map[string]interface\x7b\x7d\n    json.NewDecoder(resp.Body).Decode(&result)\n    apiKey := result[\"api_key\"].(string)\n\x7d"
  websiteGeneration := "package main\n\nimport (\n    \"bytes\"\n    \"encoding/json\"\n    \"net/http\"\n)\n\nfunc main() \x7b\n    data := map[string]interface\x7b\x7d\x7b\n        \"description\": \"A modern business website\",\n        \"style\": \"minimal\",\n        \"pages\": []string\x7b\"home\", \"about\", \"contact\"\x7d,\n    \x7d\n    \n    jsonData, _ := json.Marshal(data)\n    \n    req, _ := http.NewRequest(\"POST\",\n        \"http://api.canopus.software/Aoede/generate/website\",\n        bytes.NewBuffer(jsonData))\n        \n    req.Header.Set(\"Content-Type\", \"application/json\")\n    req.Header.Set(\"Authorization\", \"Bearer YOUR_API_KEY\")\n    \n    client := &http.Client\x7b\x7d\n    resp, _ := client.Do(req)\n    \n    var project map[string]interface\x7b\x7d\n    json.NewDecoder(resp.Body).Decode(&project)\n\x7d"
  projectStatus := "package main\n\nimport (\n    \"encoding/json\"\n    \"net/http\"\n)\n\nfunc main() \x7b\n    req, _ := http.NewRequest(\"GET\",\n        \"http://api.canopus.software/Aoede/projects/PROJECT_ID/status\",\n        nil)\n        \n    req.Header.Set(\"Authorization\", \"Bearer YOUR_API_KEY\")\n    \n    client := &http.Client\x7b\x7d\n    resp, _ := client.Do(req)\n    \n    var status map[string]interface\x7b\x7d\n    json.NewDecoder(resp.Body).Decode(&status)\n\x7d"
/-- The static store `this.codeExamples` (`codeExamples.js:7-234`),
keyed by the language string; `this.codeExamples[lang]` is `undefined`
(`none`) for any other key. -/
def codeExamples (lang : String) : Option LangExamples :=
  if lang = "curl" then some curlExamples
  else if lang = "python" then some pythonExamples
  else if lang = "javascript" then some javascriptExamples
  else if lang = "php" then some phpExamples
  else if lang = "go" then some goExamples
  else none

/-- The DOM state the example switcher reads and writes: whether each
of the three snippet elements (`#authCode`, `#generateCode`,
`#statusCode`, `index.html:67-79`) is present, the text content of
each, whether `applyBasicFormatting` has styled the blocks, and whether
`handleUpdateError` has replaced the panels with its error markup. -/
structure DocState where
  authPresent : Bool
  generatePresent : Bool
  statusPresent : Bool
  authText : String
  generateText : String
  statusText : String
  basicStyled : Bool
  panelsReplacedWithError : Bool
  deriving Repr, DecidableEq

/-- `applyBasicFormatting` (`codeExamples.js:385-393`): put plain
preformatted inline styles on every `pre code` block; touches nothing
else and cannot throw. -/
def applyBasicFormatting (st : DocState) : DocState :=
  { st with basicStyled := true }

/-- `handleUpdateError` (`codeExamples.js:395-406`): replace the three
snippet panels with a static "highlighting unavailable" markup; checks
each element for `null` first, so it cannot throw. -/
def handleUpdateError (st : DocState) : DocState :=
  { st with panelsReplacedWithError := true }

/-- The `try` block of `updateCodeExamples` (`codeExamples.js:368-378`)
for a language present in the store: assign the three text contents
(`document.getElementById(id).textContent = ...` throws a `TypeError`
when the element is `null`), then either call the highlighter (when
`typeof Prism !== 'undefined' && Prism.highlightAll`; opaque, modelled
as the identity) or fall back to `applyBasicFormatting`. -/
def updateTryBody (prismAvailable : Bool) (ex : LangExamples) (st : DocState) :
    Except (String × DocState) DocState :=
  if !st.authPresent then .error ("TypeError", st)
  else
    let st := { st with authText := ex.authentication }
    if !st.generatePresent then .error ("TypeError", st)
    else
      let st := { st with generateText := ex.websiteGeneration }
      if !st.statusPresent then .error ("TypeError", st)
      else
        let st := { st with statusText := ex.projectStatus }
        if prismAvailable then .ok st
        else .ok (applyBasicFormatting st)

/-- `updateCodeExamples` (`codeExamples.js:364-383`): look the current
language up in the store and return unchanged when it is absent
(line 366); otherwise run the `try` block, catching any exception with
`handleUpdateError` (lines 379-382).  An `Except.error` result would be
an uncaught exception escaping the method. -/
def updateCodeExamples (prismAvailable : Bool) (lang : String) (st : DocState) :
    Except (String × DocState) DocState :=
  match codeExamples lang with
  | none => .ok st
  | some ex =>
    match updateTryBody prismAvailable ex st with
    | .ok st' => .ok st'
    | .error (_, st') => .ok (handleUpdateError st')

/-! ## In-flight request model (claim C4)

`generateWebsite` and `handleApiKeyGeneration` each suspend exactly once,
at their `await fetch`.  To reason about a re-submission arriving during
the pending period we split each handler into its pre-await and
post-await halves and fold UI events over the resulting state machine.
A `click`/`submit` event on a control whose `disabled` property is set
does not fire its handler (DOM semantics); a control that merely carries
a `loading` CSS class still fires. -/

/-- Playground in-flight state: the run button's `disabled` property,
the number of pending `fetch`es, and the total number started. -/
structure PGFlight where
  runDisabled : Bool
  inFlight : Nat
  started : Nat
  deriving Repr, DecidableEq

/-- Playground events: a click on the run button, or the completion
(resolution or rejection) of a pending request. -/
inductive PGEvent where
  | click
  | complete
  deriving Repr, DecidableEq

/-- One playground event.  `click`: a disabled button does not fire, and
otherwise `generateWebsite` sets `disabled = true` before its `await`
(`playground.js:52`) and starts the fetch (`playground.js:62`).
`complete`: the `finally` block sets `disabled = false`
(`playground.js:84`); a completion with nothing pending is a no-op. -/
def pgStep (s : PGFlight) : PGEvent → PGFlight
  | .click =>
    if s.runDisabled then s
    else { runDisabled := true, inFlight := s.inFlight + 1, started := s.started + 1 }
  | .complete =>
    if s.inFlight = 0 then s
    else { runDisabled := false, inFlight := s.inFlight - 1, started := s.started }

/-- Fold a playground event trace from the idle initial state. -/
def pgRun (es : List PGEvent) : PGFlight :=
  es.foldl pgStep { runDisabled := false, inFlight := 0, started := 0 }

/-- Key-request in-flight state: the submit button's `disabled`
property and `loading` class, the number of pending `fetch`es, and the
total number started. -/
structure KFFlight where
  submitDisabled : Bool
  btnLoadingClass : Bool
  inFlight : Nat
  started : Nat
  deriving Repr, DecidableEq

/-- Key-request events: a submit of the form (with the result of local
validation for the entered values), or the completion of a pending
request. -/
inductive KFEvent where
  | submit (valid : Bool)
  | complete
  deriving Repr, DecidableEq

/-- One key-request event.  `submit`: a disabled submit button would not
fire, but `handleApiKeyGeneration` never disables it —
`setFormLoading true` (`main.js:142,213-218`) only sets the `loading`
class, spinner and label; on passing validation the fetch is started
(`main.js:144`), on failing validation the handler returns with no call
(`main.js:138`).  `complete`: the `finally` block runs
`setFormLoading false` (`main.js:164-166`). -/
def kfStep (s : KFFlight) : KFEvent → KFFlight
  | .submit valid =>
    if s.submitDisabled then s
    else if valid then
      { submitDisabled := s.submitDisabled, btnLoadingClass := true,
        inFlight := s.inFlight + 1, started := s.started + 1 }
    else s
  | .complete =>
    if s.inFlight = 0 then s
    else
      { submitDisabled := s.submitDisabled, btnLoadingClass := false,
        inFlight := s.inFlight - 1, started := s.started }

/-- Fold a key-request event trace from the idle initial state. -/
def kfRun (es : List KFEvent) : KFFlight :=
  es.foldl kfStep { submitDisabled := false, btnLoadingClass := false, inFlight := 0, started := 0 }

/-! ## Concrete fixture states, used to evaluate the theorems -/

/-- The playground state right after initialisation: default
description, `modern` style, the four checkboxes of `index.html`
with only `home` checked, idle button, initial hint rendered. -/
def pg0 : PGState where
  description := "A modern business website with a clean design"
  style := "modern"
  checkboxes :=
    [{ value := "home", checked := true }, { value := "about", checked := false },
     { value := "contact", checked := false }, { value := "services", checked := false }]
  runDisabled := false
  runLabel := "Generate Website"
  previewLoading := false
  preview := .info "Configure your website and click \"Generate Website\" to see the result"
  frameSrc := none

/-- The key-request form state right after the modal opens: no errors,
idle submit button. -/
def kf0 : KFState where
  emailGroupError := none
  companyGroupError := none
  bannerError := none
  submitDisabled := false
  btnLoadingClass := false
  spinnerShown := false
  btnLabel := "Generate API Key"
  successShown := false
  shownKey := none

/-- The documentation page state at load: all three snippet elements
present and empty, nothing styled or replaced. -/
def doc0 : DocState where
  authPresent := true
  generatePresent := true
  statusPresent := true
  authText := ""
  generateText := ""
  statusText := ""
  basicStyled := false
  panelsReplacedWithError := false

/-! ## Helper lemmas -/

/-- `getSelectedPages` is `"home"` followed by the values of the checked
non-`"home"` checkboxes, in order. -/
lemma getSelectedPages_eq (cbs : List Checkbox) :
    getSelectedPages cbs =
      "home" :: (cbs.filter fun cb => cb.checked && cb.value != "home").map Checkbox.value := by
  have h : ∀ (l : List Checkbox) (acc : List String),
      l.foldl
        (fun pages cb =>
          if cb.checked && cb.value != "home" then pages ++ [cb.value] else pages)
        acc
        = acc ++ (l.filter fun cb => cb.checked && cb.value != "home").map Checkbox.value := by
    intro l
    induction l with
    | nil => intro acc; simp
    | cons cb t ih =>
      intro acc
      rw [List.foldl_cons, ih, List.filter_cons]
      by_cases hc : (cb.checked && cb.value != "home") = true
      · rw [if_pos hc, if_pos hc]
        simp [List.append_assoc]
      · rw [if_neg hc, if_neg hc]
  simpa [getSelectedPages] using h cbs ["home"]

/-- C3: whatever the fetch outcome and whatever the state of the
page-selection checkboxes (any subset checked, including none), the
`pages` array of the config sent by the playground submission contains
the string `"home"`. -/
theorem playground_pages_include_home (outcome : FetchOutcome) (st : PGState) :
    "home" ∈ (generateWebsite outcome st).call.config.pages := by
  have hcall : (generateWebsite outcome st).call.config.pages
      = getSelectedPages st.checkboxes := by
    simp only [generateWebsite]
    split <;> rfl
  rw [hcall, getSelectedPages_eq]
  exact List.mem_cons_self _ _

/-- C9: for every checkbox state, the `pages` array built on playground
submission has `"home"` as its first element and contains `"home"`
exactly once — a checked checkbox whose value is `"home"` adds no
duplicate. -/
theorem pages_home_first_and_unique (cbs : List Checkbox) :
    ((getSelectedPages cbs).head? = some "home") ∧
    (getSelectedPages cbs).count "home" = 1 := by
  rw [getSelectedPages_eq]
  refine ⟨rfl, ?_⟩
  have hnot : "home" ∉
      (cbs.filter fun cb => cb.checked && cb.value != "home").map Checkbox.value := by
    intro hmem
    obtain ⟨cb, hcb, hval⟩ := List.mem_map.mp hmem
    have hpred := (List.mem_filter.mp hcb).2
    rw [Bool.and_eq_true, bne_iff_ne] at hpred
    exact hpred.2 hval
  rw [List.count_cons_self, List.count_eq_zero.mpr hnot]

/-- C10: after `resetPlayground`, the description equals the default
string set by `setInitialState` (not the empty string), the style is
`'modern'`, and exactly the checkboxes whose value is `'home'` are
checked. -/
theorem resetPlayground_restores_defaults (st : PGState) :
    (resetPlayground st).description = "A modern business website with a clean design" ∧
    (resetPlayground st).style = "modern" ∧
    ((resetPlayground st).checkboxes.all fun cb =>
      cb.checked == (cb.value == "home")) = true := by
  refine ⟨rfl, rfl, ?_⟩
  simp [resetPlayground, setInitialState, updatePreviewCode, List.all_map,
    List.all_eq_true]

/-! ## Claim C1: playground failures are rendered, never thrown -/

/-- C1: the playground submission handler always returns normally
(first conjunct: no uncaught exception escapes for any fetch outcome),
and whenever the fetch rejects or the response is non-2xx, the preview
pane is left rendering an object with `error = true` and a message
string, with the run button re-enabled by `finally`. -/
theorem playground_failure_rendered (outcome : FetchOutcome) (st : PGState) :
    (∃ st', (generateWebsite outcome st).result = .ok st') ∧
    (((∃ m, outcome = FetchOutcome.netError m) ∨
        (∃ b, outcome = FetchOutcome.response false b)) →
      ∃ m st', (generateWebsite outcome st).result = .ok st' ∧
        st'.preview = Preview.errObj true m ∧ st'.runDisabled = false) := by
  constructor
  · simp only [generateWebsite]
    split
    · exact ⟨_, rfl⟩
    · exact ⟨_, rfl⟩
  · rintro (⟨m, rfl⟩ | ⟨b, rfl⟩)
    · exact ⟨m, _, rfl, rfl, rfl⟩
    · cases b with
      | error msg => exact ⟨msg, _, rfl, rfl, rfl⟩
      | ok data => exact ⟨jsOrElse data.detail "Generation failed", _, rfl, rfl, rfl⟩

/-- C1 witness: a rejected fetch on the initial playground state
renders an error object. -/
theorem playground_failure_rendered_witness :
    ∃ m st', (generateWebsite (FetchOutcome.netError "Failed to fetch") pg0).result = .ok st' ∧
      st'.preview = Preview.errObj true m ∧ st'.runDisabled = false :=
  (playground_failure_rendered (FetchOutcome.netError "Failed to fetch") pg0).2
    (Or.inl ⟨"Failed to fetch", rfl⟩)

/-! ## Claim C2: invalid key-request input never reaches the network -/

/-- C2: when local validation rejects the entered email/company pair,
the key-request handler annotates the offending fields in place and
returns normally having issued no network call. -/
theorem keyform_invalid_no_fetch (email company : String) (outcome : FetchOutcome)
    (st : KFState) (h : (validateForm email company).isValid = false) :
    (handleApiKeyGeneration email company outcome st).2 = [] ∧
    ∃ st', (handleApiKeyGeneration email company outcome st).1 = .ok st' ∧
      st'.emailGroupError = (validateForm email company).emailError ∧
      st'.companyGroupError = (validateForm email company).companyError ∧
      (st'.emailGroupError.isSome ∨ st'.companyGroupError.isSome) := by
  by_cases he : isValidEmail email = true <;> by_cases hc : company.length < 2 <;>
    simp_all [handleApiKeyGeneration, validateForm, clearErrors]

/-- C2 witness: an invalid email with a too-short company name is
rejected locally, both fields are annotated, no call is issued. -/
theorem keyform_invalid_no_fetch_witness :
    (handleApiKeyGeneration "not-an-email" "x" (FetchOutcome.netError "unreached") kf0).2 = [] ∧
    ∃ st', (handleApiKeyGeneration "not-an-email" "x" (FetchOutcome.netError "unreached") kf0).1 = .ok st' ∧
      st'.emailGroupError = (validateForm "not-an-email" "x").emailError ∧
      st'.companyGroupError = (validateForm "not-an-email" "x").companyError ∧
      (st'.emailGroupError.isSome ∨ st'.companyGroupError.isSome) :=
  keyform_invalid_no_fetch "not-an-email" "x" (FetchOutcome.netError "unreached") kf0 (by decide)

/-! ## Claim C5: which body field is surfaced on a non-success response

Both controllers read `data.detail` (`playground.js:79`,
`main.js:158`), not `data.message`: a response body whose `message`
field is set but whose `detail` field is absent is rendered with the
fallback text, not with the body's message. -/

/-- C5 counterexample: a non-2xx response with body
`{ "message": "oops" }` is rendered by the playground as the fallback
`"Generation failed"`, not as the body's `message` field `"oops"` — the
message field is not surfaced verbatim. -/
theorem nonsuccess_message_not_surfaced :
    ((generateWebsite
        (FetchOutcome.response false (Except.ok
          { previewUrl := none, api_key := none, detail := none, message := some "oops" }))
        pg0).result.toOption.map PGState.preview)
      = some (Preview.errObj true "Generation failed") ∧
    ¬ ("Generation failed" = "oops") := by
  decide

/-- C5 as amended: on a non-success response whose parsed body carries a
non-empty `detail` field, that detail string is surfaced verbatim — the
playground renders it as the error object's message, and the key-request
handler (when validation passed) renders it as the inline banner;
the body's `message` field plays no role. -/
theorem nonsuccess_detail_surfaced (d : String) (body : RespBody) (st : PGState)
    (kst : KFState) (email company : String)
    (hd : body.detail = some d) (hne : d ≠ "") :
    (∃ st', (generateWebsite (FetchOutcome.response false (Except.ok body)) st).result = .ok st' ∧
      st'.preview = Preview.errObj true d) ∧
    ((validateForm email company).isValid = true →
      ∃ kst',
        (handleApiKeyGeneration email company
          (FetchOutcome.response false (Except.ok body)) kst).1 = .ok kst' ∧
        kst'.bannerError = some d) := by
  have hjs : ∀ fallback, jsOrElse body.detail fallback = d := by
    intro fallback
    rw [hd]
    simp [jsOrElse, hne]
  constructor
  · refine ⟨_, rfl, ?_⟩
    show Preview.errObj true (jsOrElse body.detail "Generation failed") = Preview.errObj true d
    rw [hjs]
  · intro hv
    simp only [handleApiKeyGeneration, hv, Bool.not_true, Bool.false_eq_true, if_false,
      setFormLoading, showErrorMessage, Bool.not_false, if_true]
    exact ⟨_, rfl, by rw [hjs]⟩

/-- C5 amended witness: body `{ "detail": "Rate limit exceeded" }` on a
non-2xx response is surfaced verbatim by both controllers. -/
theorem nonsuccess_detail_surfaced_witness :
    (∃ st',
      (generateWebsite
        (FetchOutcome.response false (Except.ok
          { previewUrl := none, api_key := none, detail := some "Rate limit exceeded", message := none }))
        pg0).result = .ok st' ∧
      st'.preview = Preview.errObj true "Rate limit exceeded") ∧
    (∃ kst',
      (handleApiKeyGeneration "a@b.co" "Co"
        (FetchOutcome.response false (Except.ok
          { previewUrl := none, api_key := none, detail := some "Rate limit exceeded", message := none }))
        kf0).1 = .ok kst' ∧
      kst'.bannerError = some "Rate limit exceeded") := by
  have h := nonsuccess_detail_surfaced "Rate limit exceeded"
    { previewUrl := none, api_key := none, detail := some "Rate limit exceeded", message := none }
    pg0 kf0 "a@b.co" "Co" rfl (by decide)
  exact ⟨h.1, h.2 (by decide)⟩

/-! ## Claim C4: one request in flight per controller -/

/-- C4 counterexample: after one valid submission of the key-request
form the request is pending (`inFlight = 1`), the button shows its
loading style, but its `disabled` property is still `false` — so a
second submit event fires the handler again and a second call departs:
two requests are in flight at once, and the pending-period
re-submission was not a no-op. -/
theorem keyform_double_submit :
    (kfRun [KFEvent.submit true]).inFlight = 1 ∧
    (kfRun [KFEvent.submit true]).btnLoadingClass = true ∧
    (kfRun [KFEvent.submit true]).submitDisabled = false ∧
    (kfRun [KFEvent.submit true, KFEvent.submit true]).inFlight = 2 ∧
    (kfRun [KFEvent.submit true, KFEvent.submit true]).started = 2 := by
  decide

/-- C4 as amended: the playground controller does disable its run
button for the duration of its request, so a click during the pending
period is a no-op and at most one playground request is ever in flight
(first conjunct, over every event trace); the key-request controller
never disables its submit control — `setFormLoading` only toggles the
loading class, spinner and label (second conjunct) — so a submission
arriving while a request is pending issues a second network call (third
conjunct). -/
theorem single_flight_per_controller :
    (∀ es : List PGEvent, (pgRun es).inFlight ≤ 1) ∧
    (∀ es : List KFEvent, (kfRun es).submitDisabled = false) ∧
    (kfRun [KFEvent.submit true, KFEvent.submit true]).inFlight = 2 := by
  refine ⟨?_, ?_, by decide⟩
  · have hinv : ∀ (es : List PGEvent) (s : PGFlight),
        s.inFlight ≤ 1 → (s.runDisabled = true ↔ s.inFlight = 1) →
        (es.foldl pgStep s).inFlight ≤ 1 ∧
          ((es.foldl pgStep s).runDisabled = true ↔ (es.foldl pgStep s).inFlight = 1) := by
      intro es
      induction es with
      | nil => intro s h1 h2; exact ⟨h1, h2⟩
      | cons e t ih =>
        intro s h1 h2
        rw [List.foldl_cons]
        cases e with
        | click =>
          by_cases hd : s.runDisabled = true
          · simpa [pgStep, hd] using ih s h1 h2
          · have h0 : s.inFlight = 0 := by
              rcases Nat.lt_or_ge s.inFlight 1 with h | h
              · omega
              · exfalso
                have : s.inFlight = 1 := by omega
                exact hd (h2.mpr this)
            have hd' : s.runDisabled = false := by
              cases hds : s.runDisabled
              · rfl
              · exact absurd hds hd
            refine ih _ ?_ ?_ <;> simp [pgStep, hd', h0]
        | complete =>
          by_cases h0 : s.inFlight = 0
          · simpa [pgStep, h0] using ih s h1 h2
          · refine ih _ ?_ ?_ <;> simp [pgStep, h0] <;> omega
    intro es
    exact (hinv es { runDisabled := false, inFlight := 0, started := 0 }
      (by simp) (by simp)).1
  · have hinv : ∀ (es : List KFEvent) (s : KFFlight),
        s.submitDisabled = false → (es.foldl kfStep s).submitDisabled = false := by
      intro es
      induction es with
      | nil => intro s h; exact h
      | cons e t ih =>
        intro s h
        rw [List.foldl_cons]
        cases e with
        | submit valid =>
          by_cases hv : valid = true
          · refine ih _ ?_
            simp [kfStep, h, hv]
          · have hv' : valid = false := by
              cases valid
              · rfl
              · exact absurd rfl hv
            refine ih _ ?_
            simp [kfStep, h, hv']
        | complete =>
          by_cases h0 : s.inFlight = 0
          · refine ih _ ?_
            simp [kfStep, h0, h]
          · refine ih _ ?_
            simp [kfStep, h0, h]
    intro es
    exact hinv es _ rfl

/-! ## Claims C6 and C7: the example switcher -/

/-- When the selected language is in the store and the three snippet
elements are present, `updateCodeExamples` succeeds and displays exactly
the store's three snippets; `applyBasicFormatting` runs precisely when
the highlighter is unavailable, and `handleUpdateError` never fires. -/
lemma updateCodeExamples_ok (prismAvailable : Bool) (lang : String)
    (ex : LangExamples) (st : DocState) (hex : codeExamples lang = some ex)
    (ha : st.authPresent = true) (hg : st.generatePresent = true)
    (hs : st.statusPresent = true) :
    ∃ st', updateCodeExamples prismAvailable lang st = .ok st' ∧
      st'.authText = ex.authentication ∧
      st'.generateText = ex.websiteGeneration ∧
      st'.statusText = ex.projectStatus ∧
      st'.basicStyled = (if prismAvailable then st.basicStyled else true) ∧
      st'.panelsReplacedWithError = st.panelsReplacedWithError := by
  unfold updateCodeExamples
  rw [hex]
  unfold updateTryBody
  cases prismAvailable <;>
    simp [ha, hg, hs, applyBasicFormatting]

/-- C6: for each supported language key (`curl`, `python`,
`javascript`, `php`, `go`), selecting it makes the switcher display
exactly the three snippets of that language's store entry — one per
operation (authentication, generation, status-check) — and each of the
three fixture strings is non-empty. -/
theorem switcher_shows_language_fixtures (prismAvailable : Bool) (lang : String)
    (st : DocState) (hlang : lang ∈ ["curl", "python", "javascript", "php", "go"])
    (ha : st.authPresent = true) (hg : st.generatePresent = true)
    (hs : st.statusPresent = true) :
    ∃ ex st', codeExamples lang = some ex ∧
      updateCodeExamples prismAvailable lang st = .ok st' ∧
      st'.authText = ex.authentication ∧
      st'.generateText = ex.websiteGeneration ∧
      st'.statusText = ex.projectStatus ∧
      ex.authentication ≠ "" ∧ ex.websiteGeneration ≠ "" ∧ ex.projectStatus ≠ "" := by
  have step : ∀ (l : String) (ex : LangExamples), codeExamples l = some ex →
      ex.authentication ≠ "" → ex.websiteGeneration ≠ "" → ex.projectStatus ≠ "" →
      ∃ ex' st', codeExamples l = some ex' ∧
        updateCodeExamples prismAvailable l st = .ok st' ∧
        st'.authText = ex'.authentication ∧
        st'.generateText = ex'.websiteGeneration ∧
        st'.statusText = ex'.projectStatus ∧
        ex'.authentication ≠ "" ∧ ex'.websiteGeneration ≠ "" ∧ ex'.projectStatus ≠ "" := by
    intro l ex hex h1 h2 h3
    obtain ⟨st', hu, ha', hg', hs', _, _⟩ :=
      updateCodeExamples_ok prismAvailable l ex st hex ha hg hs
    exact ⟨ex, st', hex, hu, ha', hg', hs', h1, h2, h3⟩
  fin_cases hlang
  · exact step _ curlExamples rfl (by decide) (by decide) (by decide)
  · exact step _ pythonExamples rfl (by decide) (by decide) (by decide)
  · exact step _ javascriptExamples rfl (by decide) (by decide) (by decide)
  · exact step _ phpExamples rfl (by decide) (by decide) (by decide)
  · exact step _ goExamples rfl (by decide) (by decide) (by decide)

/-- C6 witness: selecting `python` on the freshly loaded page displays
that language's three non-empty fixture snippets. -/
theorem switcher_shows_language_fixtures_witness :
    ∃ ex st', codeExamples "python" = some ex ∧
      updateCodeExamples true "python" doc0 = .ok st' ∧
      st'.authText = ex.authentication ∧
      st'.generateText = ex.websiteGeneration ∧
      st'.statusText = ex.projectStatus ∧
      ex.authentication ≠ "" ∧ ex.websiteGeneration ≠ "" ∧ ex.projectStatus ≠ "" :=
  switcher_shows_language_fixtures true "python" doc0 (by decide) rfl rfl rfl

/-- C7: with the highlighter unavailable (`Prism` undefined or lacking
`highlightAll`), `updateCodeExamples` returns normally on every input —
no uncaught exception ever escapes it (first conjunct) — and, for a
language in the store with the snippet elements present, it falls back
to `applyBasicFormatting`, the unstyled preformatted-text path, without
going through `handleUpdateError` (second conjunct). -/
theorem switcher_highlighter_fallback (lang : String) (st : DocState) :
    (∃ st', updateCodeExamples false lang st = .ok st') ∧
    (∀ ex, codeExamples lang = some ex →
      st.authPresent = true → st.generatePresent = true → st.statusPresent = true →
      ∃ st', updateCodeExamples false lang st = .ok st' ∧
        st'.basicStyled = true ∧
        st'.panelsReplacedWithError = st.panelsReplacedWithError) := by
  constructor
  · unfold updateCodeExamples
    cases hex : codeExamples lang with
    | none => exact ⟨st, rfl⟩
    | some ex =>
      cases h : updateTryBody false ex st with
      | ok st' => exact ⟨st', by simp [h]⟩
      | error e =>
        obtain ⟨msg, st'⟩ := e
        exact ⟨handleUpdateError st', by simp [h]⟩
  · intro ex hex ha hg hs
    obtain ⟨st', h1, _, _, _, h5, h6⟩ :=
      updateCodeExamples_ok false lang ex st hex ha hg hs
    refine ⟨st', h1, ?_, h6⟩
    simpa using h5

/-- C7 witness: with the highlighter unavailable, a `curl` selection on
the freshly loaded page succeeds and takes the plain-formatting
fallback. -/
theorem switcher_highlighter_fallback_witness :
    ∃ st', updateCodeExamples false "curl" doc0 = .ok st' ∧
      st'.basicStyled = true ∧
      st'.panelsReplacedWithError = doc0.panelsReplacedWithError :=
  (switcher_highlighter_fallback "curl" doc0).2 curlExamples rfl rfl rfl rfl

/-! ## Claim C8: the email regex and the acceptance condition -/

/-- `dotBeforeEnd` finds exactly the decompositions around a dot with a
non-empty right part. -/
lemma dotBeforeEnd_iff (t : List Char) :
    dotBeforeEnd t = true ↔ ∃ m r : List Char, t = m ++ '.' :: r ∧ r ≠ [] := by
  induction t with
  | nil =>
    constructor
    · intro h
      simp [dotBeforeEnd] at h
    · rintro ⟨m, r, h, -⟩
      cases m <;> simp_all
  | cons c t ih =>
    constructor
    · intro h
      rcases Bool.or_eq_true _ _ |>.mp h with hl | hr
      · obtain ⟨h1, h2⟩ := Bool.and_eq_true _ _ |>.mp hl
        have hc : c = '.' := by simpa using h1
        cases t with
        | nil => simp at h2
        | cons a t' => exact ⟨[], a :: t', by simp [hc], by simp⟩
      · obtain ⟨m, r, rfl, hrne⟩ := ih.mp hr
        exact ⟨c :: m, r, rfl, hrne⟩
    · rintro ⟨m, r, he, hrne⟩
      cases m with
      | nil =>
        simp only [List.nil_append] at he
        injection he with h1 h2
        subst h1
        subst h2
        have ht : t.isEmpty = false := by
          cases t
          · exact absurd rfl hrne
          · rfl
        simp [dotBeforeEnd, ht]
      | cons a m' =>
        injection he with h1 h2
        subst h1
        have hrec : dotBeforeEnd t = true := ih.mpr ⟨m', r, h2, hrne⟩
        simp [dotBeforeEnd, hrec]

/-- `hasInteriorDot` finds exactly the decompositions around a dot with
non-empty parts on both sides. -/
lemma hasInteriorDot_iff (t : List Char) :
    hasInteriorDot t = true ↔
      ∃ m r : List Char, t = m ++ '.' :: r ∧ m ≠ [] ∧ r ≠ [] := by
  cases t with
  | nil =>
    constructor
    · intro h
      simp [hasInteriorDot] at h
    · rintro ⟨m, r, h, -, -⟩
      cases m <;> simp_all
  | cons c t =>
    show dotBeforeEnd t = true ↔ _
    rw [dotBeforeEnd_iff]
    constructor
    · rintro ⟨m, r, rfl, hrne⟩
      exact ⟨c :: m, r, rfl, by simp, hrne⟩
    · rintro ⟨m, r, he, hmne, hrne⟩
      cases m with
      | nil => exact absurd rfl hmne
      | cons a m' =>
        injection he with h1 h2
        subst h1
        exact ⟨m', r, h2, hrne⟩

/-- The first element left by `dropWhile` fails the predicate. -/
lemma dropWhile_first_false (p : Char → Bool) :
    ∀ (cs : List Char) (c : Char) (t : List Char),
      cs.dropWhile p = c :: t → p c = false := by
  intro cs
  induction cs with
  | nil => intro c t h; simp [List.dropWhile] at h
  | cons a l ih =>
    intro c t h
    cases hp : p a with
    | true =>
      rw [List.dropWhile_cons_of_pos hp] at h
      exact ih c t h
    | false =>
      rw [List.dropWhile_cons_of_neg (by simp [hp])] at h
      obtain ⟨rfl, rfl⟩ := List.cons.inj h
      exact hp

/-- `takeWhile`/`dropWhile` on a list that is a block of satisfying
elements, a failing element, and a tail. -/
lemma takeWhile_dropWhile_of_append (p : Char → Bool) (l t : List Char) (x : Char)
    (hl : ∀ c ∈ l, p c = true) (hx : p x = false) :
    (l ++ x :: t).takeWhile p = l ∧ (l ++ x :: t).dropWhile p = x :: t := by
  induction l with
  | nil =>
    constructor
    · simp [List.takeWhile_cons, hx]
    · simp [List.dropWhile_cons, hx]
  | cons a l ih =>
    have ha : p a = true := hl a (by simp)
    obtain ⟨ih1, ih2⟩ := ih fun c hc => hl c (by simp [hc])
    constructor
    · simp [List.takeWhile_cons, ha, ih1]
    · simp [List.dropWhile_cons, ha, ih2]

/-- The executable regex match agrees with the declarative reading of
`/^[^\s@]+@[^\s@]+\.[^\s@]+$/`: a string matches exactly when it splits
into non-empty whitespace-free `@`-free local, domain and suffix parts
around one `@` and a later dot. -/
lemma emailMatches_iff (s : String) :
    emailMatches s = true ↔ emailRegexSpec s := by
  unfold emailMatches emailRegexSpec
  constructor
  · intro h
    cases hd : s.toList.dropWhile (fun c => c != '@') with
    | nil => rw [hd] at h; simp at h
    | cons c t =>
      rw [hd] at h
      simp only [Bool.and_eq_true, Bool.not_eq_true', List.isEmpty_eq_false] at h
      obtain ⟨⟨⟨hlne, hlok⟩, htok⟩, hdot⟩ := h
      have hc : c = '@' := by
        have := dropWhile_first_false _ _ _ _ hd
        simpa using this
      have hsplit : s.toList = s.toList.takeWhile (fun c => c != '@') ++ c :: t := by
        rw [← hd]
        exact (List.takeWhile_append_dropWhile _ _).symm
      obtain ⟨m, r, rfl, hmne, hrne⟩ := (hasInteriorDot_iff t).mp hdot
      refine ⟨s.toList.takeWhile (fun c => c != '@'), m, r, ?_, hlne, hmne, hrne,
        ?_, ?_, ?_⟩
      · nth_rewrite 1 [hsplit]
        rw [hc]
      · exact fun c hcmem => List.all_eq_true.mp hlok c hcmem
      · intro c hcmem
        exact List.all_eq_true.mp htok c (by simp [hcmem])
      · intro c hcmem
        exact List.all_eq_true.mp htok c (by simp [hcmem])
  · rintro ⟨l, m, r, hcs, hlne, hmne, hrne, hlok, hmok, hrok⟩
    have hpl : ∀ c ∈ l, (c != '@') = true := by
      intro c hc
      have := hlok c hc
      unfold charOk at this
      obtain ⟨-, h2⟩ := Bool.and_eq_true _ _ |>.mp this
      exact h2
    have hpx : (('@' : Char) != '@') = false := by simp
    obtain ⟨htake, hdrop⟩ :=
      takeWhile_dropWhile_of_append (fun c => c != '@') l (m ++ '.' :: r) '@' hpl hpx
    rw [hcs, hdrop, htake]
    have hdotok : charOk '.' = true := by decide
    simp only [Bool.and_eq_true, Bool.not_eq_true', List.isEmpty_eq_false]
    refine ⟨⟨⟨hlne, ?_⟩, ?_⟩, ?_⟩
    · exact List.all_eq_true.mpr hlok
    · rw [List.all_append]
      refine Bool.and_eq_true _ _ |>.mpr ⟨List.all_eq_true.mpr hmok, ?_⟩
      rw [List.all_cons, hdotok]
      simpa using List.all_eq_true.mpr hrok
    · exact (hasInteriorDot_iff _).mpr ⟨m, r, rfl, hmne, hrne⟩

/-- C8: the key-request form's local validation accepts a pair exactly
when the email satisfies the declarative reading of the regex
`/^[^\s@]+@[^\s@]+\.[^\s@]+$/` and the company name is at least 2
characters long; a 2-character company name is accepted (with a valid
email) and a 1-character one rejected. -/
theorem validateForm_accepts_iff :
    (∀ email company, (validateForm email company).isValid = true ↔
      (emailRegexSpec email ∧ 2 ≤ company.length)) ∧
    (validateForm "a@b.c" "ab").isValid = true ∧
    (validateForm "a@b.c" "a").isValid = false := by
  refine ⟨?_, by decide, by decide⟩
  intro email company
  unfold validateForm isValidEmail
  cases he : emailMatches email with
  | true =>
    have hspec : emailRegexSpec email := (emailMatches_iff email).mp he
    by_cases hc : company.length < 2
    · have hlen : ¬ 2 ≤ company.length := by omega
      simp [he, hc, hspec, hlen]
    · have hlen : 2 ≤ company.length := by omega
      simp [he, hc, hspec, hlen]
  | false =>
    have hspec : ¬ emailRegexSpec email := fun h =>
      by simp [(emailMatches_iff email).mpr h] at he
    simp [he, hspec]

end Aeodos
